import Mathlib

/-!
Verification of the dispatch-and-wrapping layer of the ivy repository
(array wrapper, backend stack, container multi-map), shallowly embedded
in Lean from `ivy/data_classes/array/array.py`,
`ivy/functional/ivy/searching.py`,
`ivy/functional/backends/paddle/general.py` and
`ivy/data_classes/container/experimental/manipulation.py`.
Machine integers of the payload are modelled as `Int`; tensor payloads as
flattened value lists plus a shape; Python exceptions as `Option`/`none`.
-/

namespace IvySpec

/-- A native tensor handle: the opaque per-backend data carrier, together
with the metadata the wrapper's introspection primitives read off it
(framework of origin, shape, flattened payload, dtype, device, item size,
strides, and whether the value is gradient-tracked). -/
structure NativeTensor where
  framework : String
  shape : List Nat
  values : List Int
  dtype : String
  device : String
  itemBytes : Nat
  strideList : List Nat
  gradTracked : Bool
  deriving DecidableEq, Repr

/-- The process-wide backend state: the explicit current-backend stack
(`ivy.set_backend` pushes, `ivy.previous_backend` pops), the implicit
default backend used when the stack is empty, and the global
`ivy.dynamic_backend` default flag. -/
structure IvyState where
  backendStack : List String
  implicitBackend : String
  dynamicBackendDefault : Bool
  deriving DecidableEq, Repr

/-- `ivy.current_backend_str()`: the name of the explicitly set backend,
or the empty string when no backend has been explicitly set. -/
def currentBackendStr (st : IvyState) : String :=
  match st.backendStack with
  | [] => ""
  | b :: _ => b

/-- The backend that actually services calls: top of the explicit stack
when non-empty, otherwise the implicit process default. -/
def resolvedBackend (st : IvyState) : String :=
  match st.backendStack with
  | [] => st.implicitBackend
  | b :: _ => b

/-- `ivy.set_backend`: push a backend name on the global stack. -/
def setBackend (st : IvyState) (b : String) : IvyState :=
  { st with backendStack := b :: st.backendStack }

/-- Modelled from the spec: `ivy.previous_backend` (not under src/) pops the
top of the global current-backend stack; on an empty stack it is a no-op. -/
def previousBackend (st : IvyState) : IvyState :=
  { st with backendStack := st.backendStack.tail }

/-- The `ivy.Array` wrapper state: the wrapped native tensor `_data`, the
`backend` identity string recorded at `_init`, the `_dynamic_backend` flag,
the `_backend` pinned-backend-module slot written only by the
`dynamic_backend` setter (absent on a fresh array, hence `Option`), and the
lazy caches `_size`, `_strides`, `_itemsize`, `_dtype`, `_device`. -/
structure IvyArray where
  _data : NativeTensor
  backend : String
  _dynamic_backend : Bool
  _backend : Option String
  _size : Option Nat
  _strides : Option (List Nat)
  _itemsize : Option Nat
  _dtype : Option String
  _device : Option String
  deriving DecidableEq, Repr

/-- `Array._init` (array.py lines 140-163) after the `data` kind dispatch:
stores the native data, resets every lazy cache to unset, records
`backend := ivy.current_backend_str()`, and sets `_dynamic_backend` from
the argument or the global default.  `_init` never touches the `_backend`
pinned slot, so the caller passes through its previous value (`none` on a
fresh object). -/
def initFields (st : IvyState) (d : NativeTensor) (dyn : Option Bool)
    (prevPin : Option String) : IvyArray :=
  { _data := d
    backend := currentBackendStr st
    _dynamic_backend := dyn.getD st.dynamicBackendDefault
    _backend := prevPin
    _size := none
    _strides := none
    _itemsize := none
    _dtype := none
    _device := none }

/-- The kinds of value `Array.__init__` accepts: an existing ivy Array, a
backend-native tensor, or a numpy ndarray (a `NativeTensor` whose
framework is numpy). -/
inductive ArrayInput where
  | ofArray (a : IvyArray)
  | ofTensor (t : NativeTensor)
  deriving DecidableEq, Repr

/-- `ivy.asarray(data)._data`: converting a numpy ndarray to the resolved
backend's native tensor, preserving shape and element values. -/
def asarrayConv (st : IvyState) (t : NativeTensor) : NativeTensor :=
  { t with framework := resolvedBackend st, gradTracked := false }

/-- `Array._init` including the input-kind dispatch: an ivy Array
contributes its wrapped `data`; a tensor is accepted as-is when it is
native to the resolved backend (`ivy.is_native_array`), converted when it
is a numpy ndarray, and rejected (`IvyException`, modelled `none`)
otherwise.  In every accepted case the fields are then set by
`initFields`. -/
def arrayConstruct (st : IvyState) (input : ArrayInput) (dyn : Option Bool)
    (prevPin : Option String) : Option IvyArray :=
  match input with
  | .ofArray a => some (initFields st a._data dyn prevPin)
  | .ofTensor t =>
      if t.framework = resolvedBackend st then
        some (initFields st t dyn prevPin)
      else if t.framework = "numpy" then
        some (initFields st (asarrayConv st t) dyn prevPin)
      else
        none

/-- The `Array.data` setter (array.py lines 303-308): assert the value is
a native array of the resolved backend, then re-run `_init` on it (which
re-records `backend` from the then-current backend and clears all lazy
caches); the `_backend` pinned slot is untouched by `_init`. -/
def dataSetter (st : IvyState) (a : IvyArray) (d : NativeTensor) :
    Option IvyArray :=
  if d.framework = resolvedBackend st then
    some (initFields st d none a._backend)
  else
    none

/-- The `Array.dtype` property: return the cache when set, otherwise read
`ivy.dtype(self._data)`, cache it and return it.  The third component
counts the introspection calls made on `_data` by this access. -/
def dtypeAccess (a : IvyArray) : String × IvyArray × Nat :=
  match a._dtype with
  | some d => (d, a, 0)
  | none => (a._data.dtype, { a with _dtype := some a._data.dtype }, 1)

/-- The `Array.device` property: cached read of `ivy.dev(self._data)`. -/
def deviceAccess (a : IvyArray) : String × IvyArray × Nat :=
  match a._device with
  | some d => (d, a, 0)
  | none => (a._data.device, { a with _device := some a._data.device }, 1)

/-- `functools.reduce(mul, shape)` guarded by `len(shape) > 0 ... else 0`
as in the `Array.size` property: zero for a zero-rank shape, otherwise the
left fold of multiplication seeded with the first dimension. -/
def sizeCompute (shape : List Nat) : Nat :=
  match shape with
  | [] => 0
  | h :: t => t.foldl (fun acc x => acc * x) h

/-- The `Array.size` property: cached computation of `sizeCompute` over
`self._data.shape`. -/
def sizeAccess (a : IvyArray) : Nat × IvyArray × Nat :=
  match a._size with
  | some s => (s, a, 0)
  | none =>
      (sizeCompute a._data.shape,
       { a with _size := some (sizeCompute a._data.shape) }, 1)

/-- The `Array.itemsize` property: cached read of
`ivy.itemsize(self._data)`. -/
def itemsizeAccess (a : IvyArray) : Nat × IvyArray × Nat :=
  match a._itemsize with
  | some s => (s, a, 0)
  | none => (a._data.itemBytes, { a with _itemsize := some a._data.itemBytes }, 1)

/-- The `Array.strides` property: cached read of
`ivy.strides(self._data)`. -/
def stridesAccess (a : IvyArray) : List Nat × IvyArray × Nat :=
  match a._strides with
  | some s => (s, a, 0)
  | none => (a._data.strideList, { a with _strides := some a._data.strideList }, 1)

/-- The `Array.shape` property (array.py lines 251-254): it returns
`ivy.Shape(self._data.shape)` directly on every access, with no cache
field at all. -/
def shapeAccess (a : IvyArray) : List Nat × IvyArray × Nat :=
  (a._data.shape, a, 1)

/-! Indexed assignment (`Array.__setitem__`, array.py lines 402-414). -/

/-- The value assigned in `x[query] = val`: a plain scalar or a tensor
(an ivy Array `val` has already been unwrapped to `val.data`). -/
inductive SetVal where
  | scalar (v : Int)
  | tensor (t : NativeTensor)
  deriving DecidableEq, Repr

/-- An index query, abstracted to the flat positions it selects in the
flattened payload, plus whether the selected region `self[query]` is a
scalar (`ivy.isscalar(target)`). -/
structure Query where
  idxs : List Nat
  scalarResult : Bool
  deriving DecidableEq, Repr

/-- Write `updates` positionally at the flat positions `idxs` of a value
list (the common semantics of a native indexed write and of the
scatter-with-replace primitive on the flattened payload). -/
def writeAt (values : List Int) (idxs : List Nat) (updates : List Int) :
    List Int :=
  (idxs.zip updates).foldl (fun vs p => vs.set p.1 p.2) values

/-- `tensor.detach()`: same payload with gradient tracking dropped. -/
def detach (t : NativeTensor) : NativeTensor :=
  { t with gradTracked := false }

/-- The tensor `__setitem__` actually writes into: `self._data`, replaced
by a detached copy first when the active backend is torch (array.py lines
403-404). -/
def preWriteData (st : IvyState) (a : IvyArray) : NativeTensor :=
  if currentBackendStr st = "torch" then detach a._data else a._data

/-- The update list used by the write: a scalar `val` against a non-scalar
selected region is broadcast (`ivy.ones_like(target) * val`) to one copy
per selected position; otherwise the value's own payload is used. -/
def updatesFor (q : Query) (val : SetVal) : List Int :=
  match val with
  | .scalar v => if q.scalarResult then [v] else List.replicate q.idxs.length v
  | .tensor t => t.values

/-- The dtype of the update tensor, which the scatter fallback's
`_scatter_nd_replace` casts the data to when it differs
(paddle/general.py lines 408-416). -/
def updatesDtype (d : NativeTensor) (val : SetVal) : String :=
  match val with
  | .scalar _ => d.dtype
  | .tensor t => t.dtype

/-- The backend's native indexed assignment `self._data.__setitem__`:
whether it raises depends on the backend/dtype combination, modelled by
the `support` flag; when it succeeds it writes the updates at the selected
positions. -/
def nativeSetItem (support : Bool) (t : NativeTensor) (q : Query)
    (upd : List Int) : Option NativeTensor :=
  if support then some { t with values := writeAt t.values q.idxs upd }
  else none

/-- `ivy.scatter_nd(query, val, reduction="replace", out=self)` on the
flattened payload (paddle/general.py `_scatter_nd_replace`): writes the
updates at the selected positions and leaves the result in the updates'
dtype (the data is cast to it when the two differ). -/
def scatterNdReplace (t : NativeTensor) (q : Query) (upd : List Int)
    (updDtype : String) : NativeTensor :=
  { t with values := writeAt t.values q.idxs upd, dtype := updDtype }

/-- Result of an indexed assignment: the updated array and whether the
scatter fallback path was taken. -/
structure SetItemResult where
  arr : IvyArray
  usedFallback : Bool
  deriving DecidableEq, Repr

/-- `Array.__setitem__` (array.py lines 402-414): detach first under
torch, broadcast a scalar value against a non-scalar region, attempt the
native indexed write, and on exception fall back to scatter-with-replace,
reassigning `_data` and recomputing the `_dtype` cache. -/
def setItemOp (st : IvyState) (support : Bool) (a : IvyArray) (q : Query)
    (val : SetVal) : SetItemResult :=
  let d0 := preWriteData st a
  let a0 := { a with _data := d0 }
  let upd := updatesFor q val
  match nativeSetItem support d0 q upd with
  | some d => { arr := { a0 with _data := d }, usedFallback := false }
  | none =>
      let d := scatterNdReplace d0 q upd (updatesDtype d0 val)
      { arr := { a0 with _data := d, _dtype := some d.dtype },
        usedFallback := true }

/-! Dynamic-backend reassignment (`Array.dynamic_backend` setter,
array.py lines 181-207). -/

/-- Modelled from the spec: `_determine_backend_from_args` (ivy backend
handler, not under src/) inspects the argument for the first value
carrying backend identity, here the framework that produced the array's
native data. -/
def determineBackendFromArgs (a : IvyArray) : String :=
  a._data.framework

/-- The backend's detach-to-host step `to_numpy`: the plain numeric
buffer as a numpy value, gradient history dropped. -/
def toNumpy (t : NativeTensor) : NativeTensor :=
  { t with framework := "numpy", gradTracked := false }

/-- `variable_data`: the underlying data of a backend-tracked variable. -/
def variableData (t : NativeTensor) : NativeTensor :=
  { t with gradTracked := false }

/-- `_variable`: re-wrap a tensor as a gradient-tracked variable. -/
def mkVariable (t : NativeTensor) : NativeTensor :=
  { t with gradTracked := true }

/-- `ivy.array(np_data).data`: re-materialize a host buffer as a native
tensor of the resolved current backend, values and shape preserved. -/
def ivyArrayData (st : IvyState) (t : NativeTensor) : NativeTensor :=
  { t with framework := resolvedBackend st, gradTracked := false }

/-- The `Array.dynamic_backend` setter (array.py lines 181-207).  On
`False`: pin `self._backend` from the arguments and record the flag, with
no data movement.  On `True`: read the pinned `self._backend` — absent on
an array that was never pinned, in which case the attribute lookup falls
through `__getattr__` to the native tensor and raises `AttributeError`
(modelled `none`) — then re-materialize `_data` under the now-current
backend through `to_numpy`, going through `variable_data`/`_variable`
when the data is a tracked variable on a non-jax, non-numpy backend. -/
def dynBackendSetter (st : IvyState) (a : IvyArray) (value : Bool) :
    Option IvyArray :=
  if value = false then
    some { a with _backend := some (determineBackendFromArgs a),
                  _dynamic_backend := false }
  else
    match a._backend with
    | none => none
    | some bk =>
        if a._data.gradTracked && !(bk == "jax" || bk == "numpy") then
          some { a with
                  _data := mkVariable
                    (ivyArrayData st (toNumpy (variableData a._data))),
                  _dynamic_backend := true }
        else
          some { a with _data := ivyArrayData st (toNumpy a._data),
                        _dynamic_backend := true }

/-! Serialization (`Array.__getstate__` / `Array.__setstate__`,
array.py lines 419-444). -/

/-- The persisted state: the native payload, the backend name recorded at
construction (possibly empty), and a device string. -/
structure PickleState where
  payload : NativeTensor
  backendName : Option String
  deviceStr : String
  deriving DecidableEq, Repr

/-- `Array.__getstate__`: persist exactly the native array, the recorded
backend name and the device string. -/
def getstateOp (a : IvyArray) : PickleState :=
  { payload := a._data, backendName := some a.backend,
    deviceStr := a._data.device }

/-- `ivy.array(data)`: construct a fresh Array from a payload under the
resolved current backend. -/
def ivyArrayOp (st : IvyState) (t : NativeTensor) : IvyArray :=
  initFields st { t with framework := resolvedBackend st } none none

/-- `Array.__setstate__` (array.py lines 431-444): push the recorded
backend when a non-empty name was recorded (otherwise merely resolve one
from the payload, which does not touch the stack), rebuild the Array with
`ivy.array`, then call `ivy.previous_backend()` unconditionally. -/
def setstateOp (st : IvyState) (s : PickleState) : IvyArray × IvyState :=
  let st1 :=
    match s.backendName with
    | some n => if 0 < n.length then setBackend st n else st
    | none => st
  let arr := ivyArrayOp st1 s.payload
  (arr, previousBackend st1)

/-! Nestable dispatch (decorator chain of `ivy/functional/ivy/searching.py`:
`@handle_nestable` above `@to_native_arrays_and_back` on `argmax`,
`argmin`, `where`, `argwhere`).  The wrapper bodies live in
`ivy/func_wrapper.py`, which is not under src/, so they are modelled from
the spec (section 4.3): nestable recursion re-invokes the full pipeline
per container leaf; native unwrapping converts Array arguments to native
handles right before the backend primitive. -/

/-- An argument value flowing through the dispatch pipeline: a wrapped
ivy Array leaf, a bare native tensor leaf, or a Container (an ordered
string-keyed mapping of further values). -/
inductive IvyVal where
  | leafArr (t : NativeTensor)
  | leafNative (t : NativeTensor)
  | cont (entries : List (String × IvyVal))

/-- Modelled from the spec: `to_native_arrays_and_back` composed with the
backend invocation — unwrap an Array to its native handle, call the
resolved backend primitive, wrap the native result back.  A Container
reaching the backend primitive is a crash, modelled `none`. -/
def unwrapThenPrim (prim : NativeTensor → NativeTensor) :
    IvyVal → Option IvyVal
  | .leafArr t => some (.leafArr (prim t))
  | .leafNative t => some (.leafNative (prim t))
  | .cont _ => none

mutual

/-- Modelled from the spec: `handle_nestable` — when the argument is a
Container, recurse with the full pipeline on each entry value, collecting
results into a new Container with the same keys; otherwise hand the
argument to the enclosed (inner) stage. -/
def handleNestable (inner : IvyVal → Option IvyVal) : IvyVal → Option IvyVal
  | .cont entries => (handleNestableList inner entries).map IvyVal.cont
  | .leafArr t => inner (.leafArr t)
  | .leafNative t => inner (.leafNative t)

/-- Entry-wise recursion of `handleNestable` over a Container's ordered
entries. -/
def handleNestableList (inner : IvyVal → Option IvyVal) :
    List (String × IvyVal) → Option (List (String × IvyVal))
  | [] => some []
  | (k, v) :: rest => do
      let r ← handleNestable inner v
      let rs ← handleNestableList inner rest
      pure ((k, r) :: rs)

end

/-- The dispatch pipeline in the source's decorator order for `argmax`,
`argmin`, `where` and `argwhere`: nestable recursion enclosing native
unwrapping and backend invocation. -/
def nestablePipeline (prim : NativeTensor → NativeTensor) :
    IvyVal → Option IvyVal :=
  handleNestable (unwrapThenPrim prim)

mutual

/-- The intended per-leaf semantics of a nestable primitive: apply the
backend primitive at every (Array or native) leaf, keeping the container
structure. -/
def mapLeaves (prim : NativeTensor → NativeTensor) : IvyVal → IvyVal
  | .leafArr t => .leafArr (prim t)
  | .leafNative t => .leafNative (prim t)
  | .cont entries => .cont (mapLeavesList prim entries)

/-- Entry-wise `mapLeaves` over a Container's ordered entries. -/
def mapLeavesList (prim : NativeTensor → NativeTensor) :
    List (String × IvyVal) → List (String × IvyVal)
  | [] => []
  | (k, v) :: rest => (k, mapLeaves prim v) :: mapLeavesList prim rest

end

/-! Container multi-map (`ContainerBase.cont_multi_map_in_function` as
used by `_ContainerWithManipulationExperimental.static_moveaxis`;
`container/base.py` is not under src/, so the multi-map is modelled from
the spec, section 4.4). -/

/-- A Container for the multi-map: a numeric leaf or an ordered
string-keyed mapping of sub-containers. -/
inductive Cont where
  | leaf (v : Int)
  | node (entries : List (String × Cont))

/-- The key structure of a Container: its tree of keys at every level,
with leaf payloads erased. -/
inductive KeyTree where
  | leaf
  | node (entries : List (String × KeyTree))

mutual

/-- Key structure of a Container. -/
def keyStruct : Cont → KeyTree
  | .leaf _ => .leaf
  | .node entries => .node (keyStructList entries)

/-- Entry-wise key structure of a Container's ordered entries. -/
def keyStructList : List (String × Cont) → List (String × KeyTree)
  | [] => []
  | (k, v) :: rest => (k, keyStruct v) :: keyStructList rest

end

mutual

/-- Modelled from the spec: `multi_map(op, c1, c2)` with default flags —
walk the key paths of the two Containers in insertion order, invoke `op`
on corresponding leaf pairs, and collect the results into a new Container
with the same key structure; a structural mismatch fails (`none`). -/
def multiMap (op : Int → Int → Int) : Cont → Cont → Option Cont
  | .leaf a, .leaf b => some (.leaf (op a b))
  | .node es1, .node es2 => (multiMapList op es1 es2).map Cont.node
  | _, _ => none

/-- Entry-wise `multiMap` over two Containers' ordered entries, requiring
the keys to match position by position. -/
def multiMapList (op : Int → Int → Int) :
    List (String × Cont) → List (String × Cont) →
    Option (List (String × Cont))
  | [], [] => some []
  | (k1, v1) :: r1, (k2, v2) :: r2 =>
      if k1 = k2 then do
        let v ← multiMap op v1 v2
        let r ← multiMapList op r1 r2
        pure ((k1, v) :: r)
      else none
  | _, _ => none

end

/-! Concrete sample values used by counterexamples and witnesses. -/

/-- A gradient-tracked torch native tensor. -/
def tTorch : NativeTensor :=
  { framework := "torch", shape := [3], values := [1, 2, 3],
    dtype := "float32", device := "gpu:0", itemBytes := 4,
    strideList := [1], gradTracked := true }

/-- A plain numpy ndarray. -/
def tNumpy : NativeTensor :=
  { framework := "numpy", shape := [2, 2], values := [1, 2, 3, 4],
    dtype := "int32", device := "cpu", itemBytes := 4,
    strideList := [2, 1], gradTracked := false }

/-- Backend state with numpy explicitly set. -/
def stNumpy : IvyState :=
  { backendStack := ["numpy"], implicitBackend := "numpy",
    dynamicBackendDefault := true }

/-- Backend state after additionally pushing torch. -/
def stTorchSet : IvyState := setBackend stNumpy "torch"

/-- An Array constructed while torch was the active backend
(`backend = "torch"`). -/
def arrTorch : IvyArray := initFields stTorchSet tTorch none none

/-- A fresh Array constructed while numpy was the active backend
(`backend = "numpy"`, `_backend` never pinned). -/
def arrFresh : IvyArray := initFields stNumpy tNumpy none none

/-! Theorems. -/

/-- C1 counterexample: constructing an Array from an existing Array that
identifies backend "torch" while numpy is the active backend yields
`backend = "numpy"`, not the producing backend "torch": `_init` records
`ivy.current_backend_str()` unconditionally. -/
theorem construct_ignores_producing_backend :
    arrTorch.backend = "torch"
    ∧ (arrayConstruct stNumpy (ArrayInput.ofArray arrTorch) none none).map
        (fun a => a.backend) = some "numpy"
    ∧ ("numpy" : String) ≠ "torch" := by
  refine ⟨rfl, rfl, by decide⟩

/-- C1 amended: for every accepted construction value, the new Array's
`backend` attribute equals the currently active backend string
(`ivy.current_backend_str()`), regardless of which backend produced the
value. -/
theorem construct_backend_is_current (st : IvyState) (input : ArrayInput)
    (dyn : Option Bool) (prevPin : Option String) (a : IvyArray)
    (h : arrayConstruct st input dyn prevPin = some a) :
    a.backend = currentBackendStr st := by
  cases input with
  | ofArray b =>
      simp only [arrayConstruct, Option.some.injEq] at h
      rw [← h]
      rfl
  | ofTensor t =>
      simp only [arrayConstruct] at h
      split at h
      · simp only [Option.some.injEq] at h
        rw [← h]
        rfl
      · split at h
        · simp only [Option.some.injEq] at h
          rw [← h]
          rfl
        · exact absurd h (by simp)

/-- Witness for `construct_backend_is_current` at a concrete input. -/
theorem construct_backend_is_current_witness :
    (initFields stNumpy tNumpy none none).backend = currentBackendStr stNumpy :=
  construct_backend_is_current stNumpy (ArrayInput.ofTensor tNumpy) none none
    (initFields stNumpy tNumpy none none) (by decide)

/-- C5 counterexample: assigning a new native tensor to the `data`
property re-runs `_init`, which re-records the then-current backend: an
Array built under numpy acquires `backend = "torch"` after torch is set
and `data` is assigned. -/
theorem data_setter_changes_backend :
    arrFresh.backend = "numpy"
    ∧ (dataSetter stTorchSet arrFresh tTorch).map (fun a => a.backend) =
        some "torch"
    ∧ ("torch" : String) ≠ "numpy" := by
  refine ⟨rfl, rfl, by decide⟩

/-- C5 amended: indexed assignment and dynamic-backend reassignment leave
the `backend` identity attribute unchanged, but the `data` setter re-runs
`_init` and resets `backend` to the currently active backend string — so
the data setter, not dynamic-backend reassignment, is the operation that
can change `backend` after construction. -/
theorem backend_change_operations (st : IvyState) (a a' a'' : IvyArray)
    (d : NativeTensor) (q : Query) (val : SetVal) (support b : Bool) :
    (dataSetter st a d = some a' → a'.backend = currentBackendStr st)
    ∧ ((setItemOp st support a q val).arr.backend = a.backend)
    ∧ (dynBackendSetter st a b = some a'' → a''.backend = a.backend) := by
  refine ⟨?_, ?_, ?_⟩
  · intro h
    simp only [dataSetter] at h
    split at h
    · simp only [Option.some.injEq] at h
      rw [← h]
      rfl
    · exact absurd h (by simp)
  · cases support <;>
      simp [setItemOp, nativeSetItem, preWriteData, scatterNdReplace]
  · intro h
    simp only [dynBackendSetter] at h
    split at h
    · simp only [Option.some.injEq] at h
      rw [← h]
    · split at h
      · exact absurd h (by simp)
      · split at h <;> (simp only [Option.some.injEq] at h; rw [← h])

/-- The fresh numpy Array with its `_backend` slot pinned and the
dynamic-backend flag cleared, as the `dynamic_backend = False` assignment
leaves it. -/
def arrPinned : IvyArray :=
  { arrFresh with _backend := some "numpy", _dynamic_backend := false }

/-- Witness for `backend_change_operations` at concrete inputs. -/
theorem backend_change_operations_witness :
    (initFields stTorchSet tTorch none none).backend =
        currentBackendStr stTorchSet
    ∧ (setItemOp stTorchSet true arrFresh ⟨[0], false⟩
        (SetVal.scalar 5)).arr.backend = arrFresh.backend
    ∧ arrPinned.backend = arrFresh.backend := by
  have h := backend_change_operations stTorchSet arrFresh
    (initFields stTorchSet tTorch none none) arrPinned
    tTorch ⟨[0], false⟩ (SetVal.scalar 5) true false
  exact ⟨h.1 (by decide), h.2.1, h.2.2 (by decide)⟩

/-- Left fold of multiplication seeded with `h` equals `h` times the
product. -/
theorem foldl_mul_eq_prod (t : List Nat) (h : Nat) :
    t.foldl (fun acc x => acc * x) h = h * t.prod := by
  induction t generalizing h with
  | nil => simp
  | cons x xs ih => simp [List.foldl, ih, List.prod_cons, Nat.mul_assoc]

/-- C9: the `size` property of a freshly initialized Array is 0 for a
zero-rank shape and the product of the dimensions otherwise. -/
theorem size_zero_rank_and_product (st : IvyState) (d : NativeTensor)
    (dyn : Option Bool) (prevPin : Option String) :
    (sizeAccess (initFields st d dyn prevPin)).1 =
      if d.shape = [] then 0 else d.shape.prod := by
  show sizeCompute d.shape = _
  cases hs : d.shape with
  | nil => simp [sizeCompute]
  | cons h t => simp [sizeCompute, foldl_mul_eq_prod, List.prod_cons]

/-- C6 counterexample: a second access to the `shape` property performs
another introspection of `_data` (the property has no cache field), so
`shape` is not cached. -/
theorem shape_not_cached :
    (shapeAccess (shapeAccess arrFresh).2.1).2.2 ≠ 0 := by decide

/-- C6 amended: the five fields `dtype`, `device`, `size`, `itemsize`,
`strides` are cached — a second access performs no introspection of
`_data` and returns the same value — and re-running `_init` (as the
`data` setter does) resets all five caches; `shape`, however, is
recomputed from `_data` on every access and never cached. -/
theorem metadata_caching (a : IvyArray) (st : IvyState) (d : NativeTensor)
    (dyn : Option Bool) (prevPin : Option String) :
    ((dtypeAccess (dtypeAccess a).2.1).2.2 = 0
      ∧ (dtypeAccess (dtypeAccess a).2.1).1 = (dtypeAccess a).1)
    ∧ ((deviceAccess (deviceAccess a).2.1).2.2 = 0
      ∧ (deviceAccess (deviceAccess a).2.1).1 = (deviceAccess a).1)
    ∧ ((sizeAccess (sizeAccess a).2.1).2.2 = 0
      ∧ (sizeAccess (sizeAccess a).2.1).1 = (sizeAccess a).1)
    ∧ ((itemsizeAccess (itemsizeAccess a).2.1).2.2 = 0
      ∧ (itemsizeAccess (itemsizeAccess a).2.1).1 = (itemsizeAccess a).1)
    ∧ ((stridesAccess (stridesAccess a).2.1).2.2 = 0
      ∧ (stridesAccess (stridesAccess a).2.1).1 = (stridesAccess a).1)
    ∧ (shapeAccess a = (a._data.shape, a, 1))
    ∧ ((initFields st d dyn prevPin)._dtype = none
      ∧ (initFields st d dyn prevPin)._device = none
      ∧ (initFields st d dyn prevPin)._size = none
      ∧ (initFields st d dyn prevPin)._itemsize = none
      ∧ (initFields st d dyn prevPin)._strides = none) := by
  refine ⟨?_, ?_, ?_, ?_, ?_, rfl, by simp [initFields]⟩
  · cases h : a._dtype <;> simp [dtypeAccess, h]
  · cases h : a._device <;> simp [deviceAccess, h]
  · cases h : a._size <;> simp [sizeAccess, h]
  · cases h : a._itemsize <;> simp [itemsizeAccess, h]
  · cases h : a._strides <;> simp [stridesAccess, h]

/-- C2: `x[query] = val` broadcasts a scalar value against a non-scalar
selected region, takes the scatter fallback exactly when the native
indexed write raises, recomputes the cached dtype on the fallback path,
and produces the same element values on either path, so a successful
fallback is not observable in the elements the caller reads back. -/
theorem setitem_fallback_contract (st : IvyState) (a : IvyArray)
    (q : Query) (val : SetVal) (support : Bool) (v : Int)
    (hq : q.scalarResult = false) :
    ((setItemOp st true a q val).arr._data.values =
        (setItemOp st false a q val).arr._data.values)
    ∧ ((setItemOp st support a q val).usedFallback = !support)
    ∧ ((setItemOp st false a q val).arr._dtype =
        some ((setItemOp st false a q val).arr._data.dtype))
    ∧ (updatesFor q (SetVal.scalar v) = List.replicate q.idxs.length v) := by
  refine ⟨?_, ?_, ?_, ?_⟩
  · simp [setItemOp, nativeSetItem, scatterNdReplace]
  · cases support <;> simp [setItemOp, nativeSetItem]
  · simp [setItemOp, nativeSetItem, scatterNdReplace]
  · simp [updatesFor, hq]

/-- Witness for `setitem_fallback_contract` at a concrete input. -/
theorem setitem_fallback_contract_witness :
    ((setItemOp stNumpy true arrFresh ⟨[0, 1], false⟩
        (SetVal.scalar 7)).arr._data.values =
      (setItemOp stNumpy false arrFresh ⟨[0, 1], false⟩
        (SetVal.scalar 7)).arr._data.values)
    ∧ ((setItemOp stNumpy true arrFresh ⟨[0, 1], false⟩
        (SetVal.scalar 7)).usedFallback = !true)
    ∧ ((setItemOp stNumpy false arrFresh ⟨[0, 1], false⟩
        (SetVal.scalar 7)).arr._dtype =
        some ((setItemOp stNumpy false arrFresh ⟨[0, 1], false⟩
          (SetVal.scalar 7)).arr._data.dtype))
    ∧ (updatesFor ⟨[0, 1], false⟩ (SetVal.scalar 7) =
        List.replicate (⟨[0, 1], false⟩ : Query).idxs.length 7) :=
  setitem_fallback_contract stNumpy arrFresh ⟨[0, 1], false⟩
    (SetVal.scalar 7) true 7 rfl

/-- C10: when the active backend is torch, `__setitem__` first replaces
`_data` with a detached copy, so the written array is never
gradient-tracked even when the native write succeeds; under any other
backend the pre-write data is the original `_data` and its tracking flag
survives the write. -/
theorem torch_setitem_detaches (st : IvyState) (support : Bool)
    (a : IvyArray) (q : Query) (val : SetVal) :
    (currentBackendStr st = "torch" →
      preWriteData st a = detach a._data
      ∧ (setItemOp st support a q val).arr._data.gradTracked = false)
    ∧ (currentBackendStr st ≠ "torch" →
      preWriteData st a = a._data
      ∧ (setItemOp st support a q val).arr._data.gradTracked =
          a._data.gradTracked) := by
  constructor
  · intro h
    constructor
    · simp [preWriteData, h]
    · cases support <;>
        simp [setItemOp, nativeSetItem, scatterNdReplace, preWriteData, h,
          detach]
  · intro h
    constructor
    · simp [preWriteData, h]
    · cases support <;>
        simp [setItemOp, nativeSetItem, scatterNdReplace, preWriteData, h]

/-- Witness for `torch_setitem_detaches` at concrete inputs (torch active
for the first conjunct, numpy active for the second). -/
theorem torch_setitem_detaches_witness :
    (preWriteData stTorchSet arrFresh = detach arrFresh._data
      ∧ (setItemOp stTorchSet true arrFresh ⟨[0], false⟩
          (SetVal.scalar 2)).arr._data.gradTracked = false)
    ∧ (preWriteData stNumpy arrFresh = arrFresh._data
      ∧ (setItemOp stNumpy true arrFresh ⟨[0], false⟩
          (SetVal.scalar 2)).arr._data.gradTracked =
            arrFresh._data.gradTracked) :=
  ⟨(torch_setitem_detaches stTorchSet true arrFresh ⟨[0], false⟩
      (SetVal.scalar 2)).1 (by decide),
   (torch_setitem_detaches stNumpy true arrFresh ⟨[0], false⟩
      (SetVal.scalar 2)).2 (by decide)⟩

/-- C4 counterexample: on a fresh Array (whose `_backend` slot was never
pinned by a prior `dynamic_backend = False` assignment), assigning
`dynamic_backend = True` raises `AttributeError` while reading
`self._backend`, so no re-materialization happens and the stored flag is
not updated. -/
theorem dyn_backend_true_fresh_raises :
    arrFresh._backend = none
    ∧ dynBackendSetter stNumpy arrFresh true = none := by
  exact ⟨rfl, rfl⟩

/-- C4 amended: assigning `dynamic_backend = False` pins `_backend` from
the array's own data and stores the flag with `_data` untouched;
assigning `True` succeeds only when `_backend` was previously pinned, in
which case `_data` is re-materialized under the now-current backend
through the host (numpy) representation with element values and shape
preserved and the flag stored; on a never-pinned array the `True`
assignment fails. -/
theorem dyn_backend_setter_contract (st : IvyState) (a : IvyArray)
    (bk : String) :
    (dynBackendSetter st a false =
      some { a with _backend := some (determineBackendFromArgs a),
                    _dynamic_backend := false })
    ∧ (a._backend = none → dynBackendSetter st a true = none)
    ∧ (a._backend = some bk →
        ∃ a', dynBackendSetter st a true = some a'
          ∧ a'._data.values = a._data.values
          ∧ a'._data.shape = a._data.shape
          ∧ a'._data.framework = resolvedBackend st
          ∧ a'._dynamic_backend = true
          ∧ a'.backend = a.backend) := by
  refine ⟨rfl, ?_, ?_⟩
  · intro h
    simp [dynBackendSetter, h]
  · intro h
    simp only [dynBackendSetter, if_neg (by decide : ¬(true = false)), h]
    split
    · exact ⟨_, rfl, by simp [mkVariable, ivyArrayData, toNumpy, variableData]⟩
    · exact ⟨_, rfl, by simp [ivyArrayData, toNumpy]⟩

/-- Witness for `dyn_backend_setter_contract` at concrete inputs (a fresh
array for the failure case, a pinned array for the success case). -/
theorem dyn_backend_setter_contract_witness :
    (dynBackendSetter stNumpy arrFresh false =
      some { arrFresh with
              _backend := some (determineBackendFromArgs arrFresh),
              _dynamic_backend := false })
    ∧ dynBackendSetter stNumpy arrFresh true = none
    ∧ (∃ a', dynBackendSetter stNumpy arrPinned true = some a'
        ∧ a'._data.values = arrPinned._data.values
        ∧ a'._data.shape = arrPinned._data.shape
        ∧ a'._data.framework = resolvedBackend stNumpy
        ∧ a'._dynamic_backend = true
        ∧ a'.backend = arrPinned.backend) :=
  ⟨(dyn_backend_setter_contract stNumpy arrFresh "numpy").1,
   (dyn_backend_setter_contract stNumpy arrFresh "numpy").2.1 rfl,
   (dyn_backend_setter_contract stNumpy arrPinned "numpy").2.2 rfl⟩

/-- The pickled state of the fresh numpy Array with the backend name
blanked out (the empty string means "infer"). -/
def pickleEmptyName : PickleState :=
  { payload := tNumpy, backendName := some "", deviceStr := "cpu" }

/-- A pickled state recording backend "torch". -/
def pickleTorchName : PickleState :=
  { payload := tNumpy, backendName := some "torch", deviceStr := "cpu" }

/-- Backend state whose stack holds exactly torch. -/
def stTorchOnly : IvyState :=
  { backendStack := ["torch"], implicitBackend := "numpy",
    dynamicBackendDefault := true }

/-- C7 counterexample: restoring a state whose recorded backend name is
empty performs no push but still calls `ivy.previous_backend()`, so the
caller's previously-active backend is popped: a stack holding torch comes
out empty. -/
theorem setstate_pops_without_push :
    stTorchOnly.backendStack = ["torch"]
    ∧ (setstateOp stTorchOnly pickleEmptyName).2.backendStack = []
    ∧ ([] : List String) ≠ ["torch"] := by
  refine ⟨rfl, rfl, by decide⟩

/-- C7 amended: when a non-empty backend name was recorded, the restore's
push is matched by the pop and the current-backend stack comes out
exactly as it went in, with the Array rebuilt under the recorded backend;
when the recorded name is empty or missing, no push happens but the
unconditional pop still removes the top of the caller's stack. -/
theorem setstate_stack_discipline (st : IvyState) (s : PickleState)
    (n : String) :
    (s.backendName = some n → 0 < n.length →
      (setstateOp st s).2.backendStack = st.backendStack
      ∧ (setstateOp st s).1.backend = n)
    ∧ (s.backendName = none ∨ s.backendName = some "" →
      (setstateOp st s).2.backendStack = st.backendStack.tail) := by
  constructor
  · intro h hn
    simp [setstateOp, h, hn, setBackend, previousBackend, ivyArrayOp,
      initFields, currentBackendStr]
  · intro h
    cases h with
    | inl h => simp [setstateOp, h, previousBackend]
    | inr h => simp [setstateOp, h, previousBackend]

/-- Witness for `setstate_stack_discipline` at concrete inputs (a
recorded torch name, and an empty recorded name). -/
theorem setstate_stack_discipline_witness :
    ((setstateOp stTorchOnly pickleTorchName).2.backendStack =
        stTorchOnly.backendStack
      ∧ (setstateOp stTorchOnly pickleTorchName).1.backend = "torch")
    ∧ (setstateOp stTorchOnly pickleEmptyName).2.backendStack =
        stTorchOnly.backendStack.tail :=
  ⟨(setstate_stack_discipline stTorchOnly pickleTorchName "torch").1 rfl
      (by decide),
   (setstate_stack_discipline stTorchOnly pickleEmptyName "").2
      (Or.inr rfl)⟩

mutual

/-- With nestable recursion enclosing native unwrapping, the pipeline
equals the per-leaf application of the backend primitive, on every
argument value. -/
theorem handleNestable_eq_mapLeaves (prim : NativeTensor → NativeTensor) :
    ∀ v : IvyVal,
      handleNestable (unwrapThenPrim prim) v = some (mapLeaves prim v)
  | .leafArr t => rfl
  | .leafNative t => rfl
  | .cont entries => by
      rw [handleNestable, mapLeaves, handleNestableList_eq_mapLeaves prim entries]
      rfl

/-- Entry-wise form of `handleNestable_eq_mapLeaves`. -/
theorem handleNestableList_eq_mapLeaves (prim : NativeTensor → NativeTensor) :
    ∀ l : List (String × IvyVal),
      handleNestableList (unwrapThenPrim prim) l =
        some (mapLeavesList prim l)
  | [] => rfl
  | (k, v) :: rest => by
      rw [handleNestableList, mapLeavesList,
        handleNestable_eq_mapLeaves prim v,
        handleNestableList_eq_mapLeaves prim rest]
      rfl

end

/-- C3: with the source's decorator order (nestable recursion enclosing
native unwrapping), the dispatch pipeline recurses per container leaf and
always succeeds — equal to applying the backend primitive at every leaf —
while the inner unwrap-and-invoke stage itself crashes on any Container,
so the resolved backend primitive is never invoked with a Container
argument. -/
theorem nestable_encloses_unwrap (prim : NativeTensor → NativeTensor)
    (v : IvyVal) (entries : List (String × IvyVal)) :
    nestablePipeline prim v = some (mapLeaves prim v)
    ∧ unwrapThenPrim prim (IvyVal.cont entries) = none :=
  ⟨handleNestable_eq_mapLeaves prim v, rfl⟩

mutual

/-- Structurally compatible Containers multi-map successfully, and the
result's key structure is exactly the first Container's. -/
theorem multiMap_keyStruct (op : Int → Int → Int) :
    ∀ c1 c2 : Cont, keyStruct c1 = keyStruct c2 →
      ∃ r, multiMap op c1 c2 = some r ∧ keyStruct r = keyStruct c1
  | .leaf a, .leaf b, _ => ⟨.leaf (op a b), rfl, rfl⟩
  | .leaf _, .node _, h => by
      rw [keyStruct, keyStruct] at h
      exact absurd h (by simp)
  | .node _, .leaf _, h => by
      rw [keyStruct, keyStruct] at h
      exact absurd h (by simp)
  | .node es1, .node es2, h => by
      rw [keyStruct, keyStruct] at h
      have h' : keyStructList es1 = keyStructList es2 := by
        injection h
      obtain ⟨r, hr, hk⟩ := multiMapList_keyStruct op es1 es2 h'
      exact ⟨.node r, by rw [multiMap, hr]; rfl, by rw [keyStruct, keyStruct, hk]⟩

/-- Entry-wise form of `multiMap_keyStruct`. -/
theorem multiMapList_keyStruct (op : Int → Int → Int) :
    ∀ l1 l2 : List (String × Cont),
      keyStructList l1 = keyStructList l2 →
        ∃ r, multiMapList op l1 l2 = some r
          ∧ keyStructList r = keyStructList l1
  | [], [], _ => ⟨[], rfl, rfl⟩
  | [], (_, _) :: _, h => by
      rw [keyStructList, keyStructList] at h
      exact absurd h (by simp)
  | (_, _) :: _, [], h => by
      rw [keyStructList, keyStructList] at h
      exact absurd h (by simp)
  | (k1, v1) :: r1, (k2, v2) :: r2, h => by
      rw [keyStructList, keyStructList] at h
      simp only [List.cons.injEq, Prod.mk.injEq] at h
      obtain ⟨⟨hk, hv⟩, hr⟩ := h
      obtain ⟨rv, hrv, hkv⟩ := multiMap_keyStruct op v1 v2 hv
      obtain ⟨rr, hrr, hkr⟩ := multiMapList_keyStruct op r1 r2 hr
      refine ⟨(k1, rv) :: rr, ?_, ?_⟩
      · rw [multiMapList, if_pos hk, hrv, hrr]
        rfl
      · rw [keyStructList, keyStructList, hkv, hkr]

end

/-- C8: for Containers with identical key structure, the multi-map of an
operation over them succeeds and returns a Container whose key structure
at every level is exactly the first input's; the inputs themselves are
values the (pure) multi-map only reads, never rewrites. -/
theorem multi_map_preserves_keys (op : Int → Int → Int) (c1 c2 : Cont)
    (h : keyStruct c1 = keyStruct c2) :
    ∃ r, multiMap op c1 c2 = some r ∧ keyStruct r = keyStruct c1 :=
  multiMap_keyStruct op c1 c2 h

/-- A sample two-level Container. -/
def contA : Cont :=
  .node [("a", .leaf 1), ("b", .node [("c", .leaf 2), ("d", .leaf 3)])]

/-- A second Container with the same key structure as `contA`. -/
def contB : Cont :=
  .node [("a", .leaf 10), ("b", .node [("c", .leaf 20), ("d", .leaf 30)])]

/-- Witness for `multi_map_preserves_keys` at concrete Containers. -/
theorem multi_map_preserves_keys_witness :
    ∃ r, multiMap (fun x y => x + y) contA contB = some r
      ∧ keyStruct r = keyStruct contA :=
  multi_map_preserves_keys (fun x y => x + y) contA contB (by
    rw [contA, contB]
    rfl)

end IvySpec
